import Mathlib

/-!
Shallow embedding of the eggo repository's cluster-orchestration layer
(`eggo/fabric_cli.py`) and its utility helpers (`eggo/util.py`).

Conventions of the embedding:
* Python exceptions are modelled with `Except PyErr`; a function that can
  raise returns `Except PyErr α`, and plain sequencing of statements that can
  raise is monadic bind (an uncaught exception aborts the rest of the body,
  exactly as in Python).
* External, effectful collaborators (the fabric `run`/`local`/`sudo`
  transports, the EC2/S3 connections, `datetime.now`, `random.sample`) are
  modelled either as explicit inputs (`ExtEnv`), or as emitted effect values
  in a returned effect list, so that what a function *does* is a value we can
  reason about.
* Python `str` values are Lean `String`s except in `sanitize`, where the
  character-level claim makes `List Char` the convenient faithful model.
-/

/-- The Python exceptions that the embedded code can raise. -/
inductive PyErr where
  /-- `TypeError`, e.g. from calling a builtin with too many arguments. -/
  | typeError (msg : String)
  /-- `ValueError`, e.g. from `random.sample` with too large a sample. -/
  | valueError (msg : String)
  /-- The `OSError`/`FileNotFoundError` raised by `shutil.rmtree` on a
  missing path. -/
  | fileNotFoundError
  /-- `IndexError` from an out-of-range sequence subscript. -/
  | indexError
  /-- `NotImplementedError(msg)`. -/
  | notImplementedError (msg : String)
  deriving DecidableEq, Repr

deriving instance DecidableEq for Except

/-- A Python value passed as an argument to a builtin method call
(only the shapes the embedded code uses). -/
inductive PyVal where
  | str (s : String)
  | int (n : Int)
  deriving DecidableEq, Repr

/-- Model of the Python builtin `str.rstrip`, applied to an explicit argument
list.  Python's signature is `rstrip(chars=None)`: zero arguments strips
trailing whitespace, one string argument strips trailing characters drawn
from it, and any call with more than one argument raises
`TypeError: rstrip() takes at most 1 argument`. -/
def str_rstrip (self : String) (args : List PyVal) : Except PyErr String :=
  match args with
  | [] => .ok (String.mk ((self.toList.reverse.dropWhile Char.isWhitespace).reverse))
  | [PyVal.str chars] =>
    .ok (String.mk ((self.toList.reverse.dropWhile (fun c => chars.toList.contains c)).reverse))
  | [PyVal.int _] => .error (.typeError "rstrip arg must be None or str")
  | _ => .error (.typeError "rstrip() takes at most 1 argument (2 given)")

/-- Model of `random.sample(string.ascii_uppercase, n)`: the sampled string
itself is external randomness and is supplied as the input `sampled`, but the
error behaviour is kept: sampling more than the 26-letter population raises
`ValueError` (Python: "sample larger than population"). -/
def random_sample_upper (n : Nat) (sampled : String) : Except PyErr String :=
  if n ≤ 26 then .ok sampled else .error (.valueError "sample larger than population")

/-- `eggo/util.py` `random_id(prefix='tmp_eggo', n=4)`.  The current time
string (`datetime.now().strftime(...)`) and the drawn random letters are
external inputs `now` and `sampled`.  The body computes `dt_string`, then
`rand_string`, then formats `pre.rstrip('_', 1)` — note the two-argument
`rstrip` call, taken verbatim from the source. -/
def random_id (pre : String) (n : Nat) (now sampled : String) :
    Except PyErr String := do
  let dt_string := now
  let rand_string ← random_sample_upper n sampled
  let stripped ← str_rstrip pre [PyVal.str "_", PyVal.int 1]
  return stripped ++ "_" ++ dt_string ++ "_" ++ rand_string

/-- Whether an `Except` result is a raised `TypeError`. -/
def isTypeErrorResult {α : Type} : Except PyErr α → Bool
  | .error (.typeError _) => true
  | _ => false

/-- The characters the regex `r'/|\\|;|:|\?|='` in `sanitize` matches. -/
def bannedChar (c : Char) : Bool :=
  c == '/' || c == '\\' || c == ';' || c == ':' || c == '?' || c == '='

/-- Model of `re.sub(r'/|\\|;|:|\?|=', '_', dirty)`: every occurrence of one
of the six characters is replaced by an underscore. -/
def reSubSanitize (s : List Char) : List Char :=
  s.map (fun c => if bannedChar c then '_' else c)

/-- Python's `s[-n:]`: the last `n` characters (the whole string when it is
shorter than `n`). -/
def takeRightL (n : Nat) (l : List Char) : List Char :=
  l.drop (l.length - n)

/-- `eggo/util.py` `sanitize(dirty)`.  `md5hex` stands for
`lambda s: md5(s).hexdigest()` from the external `hashlib` collaborator; a
real hex digest is 32 hexadecimal characters, which the theorems take as a
hypothesis. -/
def sanitize (md5hex : List Char → List Char) (dirty : List Char) : List Char :=
  let clean := reSubSanitize dirty
  if 150 < clean.length then md5hex dirty ++ takeRightL 114 clean else clean

/-! ### `fabric_cli.py`: execution context, host resolution -/

/-- The external world the host-resolution functions consult: captured output
of the `spark-ec2 get-master` CLI invocation, the managed-cluster (director)
service's answers, and the `echo $SLAVES` output captured on the master. -/
structure ExtEnv where
  spark_getmaster_output : String
  director_gateway_host : String
  director_worker_hosts : List String
  spark_slaves_output : String
  deriving Repr

/-- Splitting a character list at every character satisfying `p` (the
separators are dropped; `n` separators yield `n + 1` pieces, so empty pieces
mark adjacent separators, like Python's `str.split(sep)`). -/
def splitOnPred (p : Char → Bool) : List Char → List (List Char)
  | [] => [[]]
  | c :: cs =>
    let rest := splitOnPred p cs
    if p c then [] :: rest
    else
      match rest with
      | [] => [[c]]
      | r :: rs => (c :: r) :: rs

/-- Python's `s.split('\n')` piece list, on character lists. -/
def splitLines (l : List Char) : List (List Char) :=
  splitOnPred (fun c => c == '\n') l

/-- Python's `str.strip()`: drop whitespace from both ends. -/
def pyStripWs (l : List Char) : List Char :=
  ((l.dropWhile Char.isWhitespace).reverse.dropWhile Char.isWhitespace).reverse

/-- Python's no-argument `str.split()`: split on whitespace runs, dropping
empty pieces. -/
def pySplitWhitespace (s : String) : List String :=
  ((splitOnPred Char.isWhitespace s.toList).filter (fun t => t ≠ [])).map String.mk

/-- `get_master_host()`.  The execution context `ctx` is the module-level
`exec_ctx` configuration string.  Under `spark_ec2` the captured CLI output
is split on newlines and line index 2 is taken (`result.split('\n')[2]`,
an `IndexError` when fewer than three lines) and stripped; under `director`
the managed service's gateway host is returned; under `local` the literal
`localhost`; any other context raises `NotImplementedError`. -/
def get_master_host (ctx : String) (e : ExtEnv) : Except PyErr String :=
  if ctx = "spark_ec2" then
    let lines := splitLines e.spark_getmaster_output.toList
    if h : 2 < lines.length then .ok (String.mk (pyStripWs (lines.get ⟨2, h⟩)))
    else .error .indexError
  else if ctx = "director" then .ok e.director_gateway_host
  else if ctx = "local" then .ok "localhost"
  else .error (.notImplementedError (ctx ++ " exec ctx is not supported for this method"))

/-- `get_slave_hosts()`.  Under `director` it asks the managed service;
under `spark_ec2` it first resolves the master (so a master-resolution
failure propagates) and then splits the `echo $SLAVES` output captured on
that master on whitespace; under `local` it is the empty list. -/
def get_slave_hosts (ctx : String) (e : ExtEnv) : Except PyErr (List String) :=
  if ctx = "director" then .ok e.director_worker_hosts
  else if ctx = "spark_ec2" then do
    let _master ← get_master_host ctx e
    return pySplitWhitespace e.spark_slaves_output
  else if ctx = "local" then .ok []
  else .error (.notImplementedError (ctx ++ " exec ctx is not supported for this method"))

/-- `get_worker_hosts()` = `[get_master_host()] + get_slave_hosts()`. -/
def get_worker_hosts (ctx : String) (e : ExtEnv) : Except PyErr (List String) := do
  let master ← get_master_host ctx e
  let slaves ← get_slave_hosts ctx e
  return master :: slaves

/-! ### `sudo` dispatch and the `list` task -/

/-- How a `sudo(command, **kwargs)` call is actually transported. -/
inductive SudoAction where
  /-- `fabric.api.sudo(command, **kwargs)`: network transport with
  privilege elevation (kwargs may carry an impersonated `user`). -/
  | fabricSudo (cmd : String) (kwargs : List (String × String))
  /-- `fabric.api.run(command)`: network transport, no elevation. -/
  | runCmd (cmd : String)
  /-- `fabric.api.local(command)`: executed on the calling host. -/
  | localCmd (cmd : String)
  deriving DecidableEq, Repr

/-- `fabric_cli.py` `sudo(command, **kwargs)`.  The keyword arguments are a
(possibly empty) association list; Python's truthiness of the `kwargs` dict
is its non-emptiness.  Note the first test is `exec_ctx == 'director' or
kwargs`, taken verbatim from the source.  (Named `sudo_dispatch` because
`sudo` is a reserved token in this Lean environment.) -/
def sudo_dispatch (ctx : String) (command : String) (kwargs : List (String × String)) :
    Except PyErr SudoAction :=
  if ctx = "director" ∨ kwargs ≠ [] then .ok (.fabricSudo command kwargs)
  else if ctx = "spark_ec2" then .ok (.runCmd command)
  else if ctx = "local" then .ok (.localCmd command)
  else .error (.valueError (ctx ++ " exec ctx is not supported for this method"))

/-- The `list` fabric task: delegates to the managed-cluster service under
`director`, and raises `NotImplementedError` for every other context, with
the message `'{} exec ctx is not supported for this method'.format(exec_ctx)`. -/
def list (ctx : String) : Except PyErr Unit :=
  if ctx = "director" then .ok ()
  else .error (.notImplementedError (ctx ++ " exec ctx is not supported for this method"))

/-! ### Storage URLs, configuration, and `provision` -/

/-- The result of `urlparse` on a storage URL: we keep the three components
the code reads (`scheme`, `netloc`, `path`). -/
structure StorageURL where
  scheme : String
  netloc : String
  path : String
  deriving DecidableEq, Repr

/-- The configuration keys `fabric_cli.py` reads from `eggo_config`.  The
three DFS URLs are kept in parsed form (the code parses them with `urlparse`
immediately after reading them). -/
structure EggoConfig where
  dfs_root_url : StorageURL
  dfs_raw_data_url : StorageURL
  dfs_tmp_data_url : StorageURL
  spark_home : String
  ec2_key_pair : String
  ec2_private_key_file : String
  num_slaves : String
  instance_type : String
  region : String
  availability_zone : String
  stack_name : String
  deriving DecidableEq, Repr

/-- The observable side effects of `provision()`. -/
inductive ProvisionEffect where
  /-- `fabric.api.local(cmd)`: a shell command run on the calling host. -/
  | localCmd (cmd : String)
  /-- `eggo.director.provision()`: delegation to the managed-cluster
  service. -/
  | directorProvision
  /-- `boto.ec2.connect_to_region(region)`: a network connection. -/
  | connectRegion (region : String)
  /-- Tagging all provisioned instances with `owner` and `stack_name`
  (the per-instance loop of `add_tag` calls, abstracted to one effect). -/
  | tagInstances (owner stackName : String)
  deriving DecidableEq, Repr

/-- The `--zone {az}` argument of the `spark-ec2 launch` command: empty when
no availability zone is configured. -/
def zoneArg (az : String) : String :=
  if az ≠ "" then "--zone " ++ az else ""

/-- The interpolated `spark-ec2 ... launch` command of `provision()`. -/
def sparkEc2LaunchCmd (cfg : EggoConfig) : String :=
  cfg.spark_home ++ "/ec2/spark-ec2 -k " ++ cfg.ec2_key_pair ++
  " -i " ++ cfg.ec2_private_key_file ++ " -s " ++ cfg.num_slaves ++
  " -t " ++ cfg.instance_type ++ " -r " ++ cfg.region ++ " " ++
  zoneArg cfg.availability_zone ++ " --copy-aws-credentials launch " ++
  cfg.stack_name

/-- The `provision` fabric task as a list of effects, in program order:
the backend-specific provisioning step (`spark_ec2` CLI launch, director
delegation, or nothing for any other context), then — when the configured
`dfs_root_url` has the `file` scheme — `mkdir -p` for the root, raw and tmp
paths, then (for `spark_ec2` and `director` only) the EC2 connection and
instance tagging.  `user` is `getpass.getuser()`. -/
def provision (ctx : String) (cfg : EggoConfig) (user : String) :
    List ProvisionEffect :=
  (if ctx = "spark_ec2" then [.localCmd (sparkEc2LaunchCmd cfg)]
   else if ctx = "director" then [.directorProvision]
   else []) ++
  (if cfg.dfs_root_url.scheme = "file" then
    [.localCmd ("mkdir -p " ++ cfg.dfs_root_url.path),
     .localCmd ("mkdir -p " ++ cfg.dfs_raw_data_url.path),
     .localCmd ("mkdir -p " ++ cfg.dfs_tmp_data_url.path)]
   else []) ++
  (if ctx = "spark_ec2" ∨ ctx = "director" then
    [.connectRegion cfg.region, .tagInstances user cfg.stack_name]
   else [])

/-! ### The DFS state and the delete tasks -/

/-- The storage state the delete tasks mutate: the set of existing local
directory trees (as their paths), and the object-store contents as
(bucket, key) pairs. -/
structure DfsState where
  files : List String
  s3 : List (String × String)
  deriving DecidableEq, Repr

/-- Whether `q` lies inside the directory tree rooted at `root` (including
`root` itself), as string-prefix containment on paths. -/
def pathUnder (root q : String) : Bool :=
  decide (root.toList <+: q.toList)

/-- Model of `shutil.rmtree(path)` with default arguments: if the path
exists the whole tree under it is removed; if it does not exist the call
raises (`ignore_errors` is not set in the source). -/
def rmtree (path : String) (fs : List String) : Except PyErr (List String) :=
  if path ∈ fs then .ok (fs.filter (fun q => !(pathUnder path q)))
  else .error .fileNotFoundError

/-- Python's `str.lstrip('/')`: drop leading slashes. -/
def lstripSlashes (s : String) : String :=
  String.mk (s.toList.dropWhile (fun c => c == '/'))

/-- The scheme-dispatch block that appears verbatim in each of `delete_raw`,
`delete_tmp` and `delete_toasted`: `s3n` lists every key under the path
prefix in the URL's bucket and bulk-deletes them (deleting zero keys is not
an error); `file` calls `rmtree` on the URL's path; any other scheme raises
`NotImplementedError('{0} dfs scheme not supported')`. -/
def delete_url (url : StorageURL) (st : DfsState) : Except PyErr DfsState :=
  if url.scheme = "s3n" then
    let pre := lstripSlashes url.path
    .ok { st with
          s3 := st.s3.filter
            (fun kv => !(kv.1 == url.netloc && pre.toList.isPrefixOf kv.2.toList)) }
  else if url.scheme = "file" then
    match rmtree url.path st.files with
    | .ok fs => .ok { st with files := fs }
    | .error e => .error e
  else .error (.notImplementedError (url.scheme ++ " dfs scheme not supported"))

/-- `os.path.join(base, name)` for the case the delete tasks use (a nonempty
base URL string and a relative dataset name). -/
def pathJoin (base name : String) : String :=
  if base.toList.getLast? = some '/' then base ++ name else base ++ "/" ++ name

/-- `urlparse(os.path.join(url, name))` where `url` is an already-parsed
configured URL: the dataset name is appended to the path component. -/
def joinUrl (base : StorageURL) (name : String) : StorageURL :=
  { base with path := pathJoin base.path name }

/-- `delete_raw(config)`: joins the configured `dfs_raw_data_url` with the
job config's `name` and dispatches on the scheme. -/
def delete_raw (cfg : EggoConfig) (name : String) (st : DfsState) :
    Except PyErr DfsState :=
  delete_url (joinUrl cfg.dfs_raw_data_url name) st

/-- `delete_tmp(config)`: same dispatch, rooted at `dfs_tmp_data_url`. -/
def delete_tmp (cfg : EggoConfig) (name : String) (st : DfsState) :
    Except PyErr DfsState :=
  delete_url (joinUrl cfg.dfs_tmp_data_url name) st

/-- `delete_toasted(config)`: same dispatch, rooted at `dfs_root_url`. -/
def delete_toasted (cfg : EggoConfig) (name : String) (st : DfsState) :
    Except PyErr DfsState :=
  delete_url (joinUrl cfg.dfs_root_url name) st

/-- `delete_all(config)`: the three plain statements
`delete_tmp(config); delete_raw(config); delete_toasted(config)` with no
exception handling — an exception raised by one call propagates and aborts
the rest, exactly as in Python. -/
def delete_all (cfg : EggoConfig) (name : String) (st : DfsState) :
    Except PyErr DfsState := do
  let st1 ← delete_tmp cfg name st
  let st2 ← delete_raw cfg name st1
  delete_toasted cfg name st2

/-- Modelled from the spec's words, for comparison with `delete_all` (the
refinement the claim asserts): attempts all three deletes in the order tmp,
raw, toasted, and when one fails it records the error and still executes the
subsequent deletes, returning the final state and the collected errors. -/
def delete_all_spec (cfg : EggoConfig) (name : String) (st : DfsState) :
    DfsState × List PyErr :=
  let step := fun (acc : DfsState × List PyErr)
                  (f : DfsState → Except PyErr DfsState) =>
    match f acc.1 with
    | .ok st2 => (st2, acc.2)
    | .error e => (acc.1, acc.2 ++ [e])
  step (step (step (st, []) (delete_tmp cfg name))
        (delete_raw cfg name)) (delete_toasted cfg name)

/-! ### The clone-or-skip install steps -/

/-- A remote operation emitted by the install steps. -/
inductive RemoteEffect where
  /-- `fabric.api.run(cmd)` on the target host. -/
  | runCmd (cmd : String)
  /-- A call of the module's `sudo(cmd)` wrapper on the target host. -/
  | sudoCmd (cmd : String)
  deriving DecidableEq, Repr

/-- Joining path pieces back with `/` separators. -/
def joinWithSlash : List (List Char) → List Char
  | [] => []
  | [x] => x
  | x :: xs => x ++ '/' :: joinWithSlash xs

/-- `os.path.dirname` for the slash-separated paths the install steps use:
everything before the last `/` separator. -/
def dirname (p : String) : String :=
  String.mk (joinWithSlash ((splitOnPred (fun c => c == '/') p.toList).dropLast))

/-- Whether a remote effect is a `git clone` invocation. -/
def isCloneCmd : RemoteEffect → Bool
  | .runCmd c => "git clone ".toList.isPrefixOf c.toList
  | _ => false

/-- Whether a remote effect is a `git checkout` invocation. -/
def isCheckoutCmd : RemoteEffect → Bool
  | .runCmd c => "git checkout ".toList.isPrefixOf c.toList
  | _ => false

/-- The ref the clone block leaves checked out when it does run: `master`
right after `git clone`, and `origin/{branch}` after the conditional
`git checkout origin/{branch}` that runs only when `branch != 'master'`. -/
def checkedOutRef (branch : String) : String :=
  if branch = "master" then "master" else "origin/" ++ branch

/-- State of a cloned working copy on the target host: `none` when the
target directory does not exist, `some ref` when it exists with `ref`
checked out.  The `fabric.contrib.files.exists(path)` test is `isSome`. -/
abbrev RepoState := Option String

/-- `install_eggo(work_path, eggo_home, fork, branch)` as a transformer of
the eggo working-copy state, also returning the remote effects it performs:
when `eggo_home` does not exist it creates the parent directory, clones
`https://github.com/{fork}/eggo.git` and, only when `branch != 'master'`,
checks out `origin/{branch}`; when `eggo_home` exists the whole block is
skipped.  In either case it finishes with `sudo('python setup.py install')`
inside `eggo_home`. -/
def install_eggo (eggo_home fork branch : String) (st : RepoState) :
    RepoState × List RemoteEffect :=
  match st with
  | none =>
    let cloneEffs := [RemoteEffect.runCmd ("mkdir -p " ++ dirname eggo_home),
                      RemoteEffect.runCmd ("git clone https://github.com/" ++ fork ++ "/eggo.git")]
    if branch ≠ "master" then
      (some ("origin/" ++ branch),
       cloneEffs ++ [RemoteEffect.runCmd ("git checkout origin/" ++ branch),
                     RemoteEffect.sudoCmd "python setup.py install"])
    else
      (some "master", cloneEffs ++ [RemoteEffect.sudoCmd "python setup.py install"])
  | some r => (some r, [RemoteEffect.sudoCmd "python setup.py install"])

/-- `install_adam(work_path, adam_home, maven_version, fork, branch)` as a
transformer of the adam working-copy state: it always downloads and unpacks
maven under `work_path`, then — only when `adam_home` does not exist —
creates the parent directory, clones `https://github.com/{fork}/adam.git`
and, when `branch != 'master'`, checks out `origin/{branch}`; it always
finishes by building adam with maven inside `adam_home`. -/
def install_adam (work_path adam_home maven_version fork branch : String)
    (st : RepoState) : RepoState × List RemoteEffect :=
  let mvnEffs :=
    [RemoteEffect.runCmd ("mkdir -p " ++ work_path ++ "/apache-maven"),
     RemoteEffect.runCmd ("wget http://apache.mesi.com.ar/maven/maven-3/" ++
       maven_version ++ "/binaries/apache-maven-" ++ maven_version ++ "-bin.tar.gz"),
     RemoteEffect.runCmd ("tar -xzf apache-maven-" ++ maven_version ++ "-bin.tar.gz")]
  let buildEffs := [RemoteEffect.runCmd "$M2/mvn clean package -DskipTests"]
  match st with
  | none =>
    let cloneEffs := [RemoteEffect.runCmd ("mkdir -p " ++ dirname adam_home),
                      RemoteEffect.runCmd ("git clone https://github.com/" ++ fork ++ "/adam.git")]
    if branch ≠ "master" then
      (some ("origin/" ++ branch),
       mvnEffs ++ cloneEffs ++
       [RemoteEffect.runCmd ("git checkout origin/" ++ branch)] ++ buildEffs)
    else
      (some "master", mvnEffs ++ cloneEffs ++ buildEffs)
  | some r => (some r, mvnEffs ++ buildEffs)

/-! ### Concrete inputs used by witnesses and counterexamples -/

/-- A configuration whose three DFS URLs live on the local (`file`) scheme. -/
def demoConfig : EggoConfig :=
  { dfs_root_url := ⟨"file", "", "/data"⟩,
    dfs_raw_data_url := ⟨"file", "", "/data/raw"⟩,
    dfs_tmp_data_url := ⟨"file", "", "/data/tmp"⟩,
    spark_home := "/opt/spark", ec2_key_pair := "kp",
    ec2_private_key_file := "kp.pem", num_slaves := "2",
    instance_type := "m1.large", region := "us-east-1",
    availability_zone := "", stack_name := "stk" }

/-- An external world: the `get-master` CLI prints the master address on its
third line, and the master's `$SLAVES` holds two addresses. -/
def demoEnv : ExtEnv :=
  { spark_getmaster_output := "Searching for cluster stk...\nFound 1 master, 2 slaves.\n  ec2-54-10-0-1.example  \n",
    director_gateway_host := "gw.example",
    director_worker_hosts := ["w1.example", "w2.example"],
    spark_slaves_output := " s1.example  s2.example " }

/-- A stand-in for `hashlib`'s md5 hexdigest: a constant 32-character hex
string (the digest of the empty string). -/
def md5hexDemo : List Char → List Char :=
  fun _ => "d41d8cd98f00b204e9800998ecf8427e".toList

/-- A 159-character URI containing every character `sanitize` rewrites. -/
def dirtyDemo : List Char :=
  ("http://example.org/genomics/datasets/giab/NA12878/alignment?version=2015-06-01;" ++
   "format=bam;chrom=1:2:3:4:5:6:7:8:9:10;assembly=GRCh37/hg19/b37/extra/list=yes/no").toList

/-! ### Theorems -/

/-- C9 (amended): `random_id` never returns a value.  Whenever the random
sampling succeeds (every `n ≤ 26`, in particular the default `n = 4`) the
`prefix.rstrip('_', 1)` call raises `TypeError` because `rstrip` accepts at
most one argument; for `n > 26` the `random.sample` call raises `ValueError`
first.  The documented success path (a `prefix_timestamp_RAND` identifier)
is unreachable. -/
theorem random_id_never_returns (pre : String) (n : Nat) (now sampled : String) :
    (∃ e, random_id pre n now sampled = Except.error e) ∧
    (n ≤ 26 → random_id pre n now sampled =
      Except.error (PyErr.typeError "rstrip() takes at most 1 argument (2 given)")) := by
  by_cases h : n ≤ 26
  · have hres : random_id pre n now sampled =
        Except.error (PyErr.typeError "rstrip() takes at most 1 argument (2 given)") := by
      simp [random_id, random_sample_upper, str_rstrip, h, Bind.bind, Except.bind]
    exact ⟨⟨_, hres⟩, fun _ => hres⟩
  · have hres : random_id pre n now sampled =
        Except.error (PyErr.valueError "sample larger than population") := by
      simp [random_id, random_sample_upper, h, Bind.bind, Except.bind]
    exact ⟨⟨_, hres⟩, fun hn => absurd hn h⟩

/-- C9 witness: at the source's default arguments (`prefix='tmp_eggo'`,
`n=4`) the call raises the two-argument-`rstrip` `TypeError`. -/
theorem random_id_never_returns_witness :
    random_id "tmp_eggo" 4 "2015-06-01T12-00-00" "ABCD" =
      Except.error (PyErr.typeError "rstrip() takes at most 1 argument (2 given)") :=
  (random_id_never_returns "tmp_eggo" 4 "2015-06-01T12-00-00" "ABCD").2 (by decide)

/-- C9 counterexample to the universally quantified claim: at `n = 27` the
raised exception is `random.sample`'s `ValueError`, not a `TypeError`. -/
theorem random_id_typeerror_cex :
    random_id "tmp_eggo" 27 "2015-06-01T12-00-00" "ABCD" =
      Except.error (PyErr.valueError "sample larger than population") ∧
    isTypeErrorResult (random_id "tmp_eggo" 27 "2015-06-01T12-00-00" "ABCD") = false := by
  exact ⟨rfl, rfl⟩

/-- C10: for every input, `sanitize` (given that the external md5 hexdigest
returns 32 characters none of which is one of the six rewritten characters)
returns a string free of `/ \ ; : ? =` of length at most 150, and when the
substituted string exceeds 150 characters the result is the 32-character
digest followed by the last 114 characters of the substituted string —
146 characters in all. -/
theorem sanitize_clean_and_bounded (md5hex : List Char → List Char) (dirty : List Char)
    (hlen : (md5hex dirty).length = 32)
    (hhex : ∀ c ∈ md5hex dirty, bannedChar c = false) :
    (∀ c ∈ sanitize md5hex dirty, bannedChar c = false) ∧
    (sanitize md5hex dirty).length ≤ 150 ∧
    (150 < (reSubSanitize dirty).length →
      sanitize md5hex dirty = md5hex dirty ++ takeRightL 114 (reSubSanitize dirty) ∧
      (sanitize md5hex dirty).length = 146) := by
  have hcleanBan : ∀ c ∈ reSubSanitize dirty, bannedChar c = false := by
    intro c hc
    simp only [reSubSanitize, List.mem_map] at hc
    obtain ⟨a, _, rfl⟩ := hc
    by_cases hb : bannedChar a
    · simp only [hb, if_true]; decide
    · simp [hb]
  have hdropBan : ∀ c ∈ takeRightL 114 (reSubSanitize dirty), bannedChar c = false :=
    fun c hc => hcleanBan c (List.drop_subset _ _ hc)
  by_cases hbig : 150 < (reSubSanitize dirty).length
  · have hval : sanitize md5hex dirty =
        md5hex dirty ++ takeRightL 114 (reSubSanitize dirty) := by
      simp [sanitize, hbig]
    have hlen146 : (sanitize md5hex dirty).length = 146 := by
      rw [hval, List.length_append, hlen, takeRightL, List.length_drop]
      omega
    refine ⟨?_, ?_, fun _ => ⟨hval, hlen146⟩⟩
    · intro c hc
      rw [hval] at hc
      rcases List.mem_append.mp hc with hc1 | hc2
      · exact hhex c hc1
      · exact hdropBan c hc2
    · omega
  · have hval : sanitize md5hex dirty = reSubSanitize dirty := by
      simp [sanitize, hbig]
    refine ⟨?_, ?_, fun hcontra => absurd hcontra hbig⟩
    · intro c hc
      rw [hval] at hc
      exact hcleanBan c hc
    · rw [hval]; omega

/-- C10 witness: a concrete 159-character URI; the hypotheses hold for the
concrete digest and the conclusion is obtained by applying the theorem. -/
theorem sanitize_clean_and_bounded_witness :
    ((md5hexDemo dirtyDemo).length = 32 ∧ (∀ c ∈ md5hexDemo dirtyDemo, bannedChar c = false)) ∧
    ((∀ c ∈ sanitize md5hexDemo dirtyDemo, bannedChar c = false) ∧
     (sanitize md5hexDemo dirtyDemo).length ≤ 150 ∧
     (150 < (reSubSanitize dirtyDemo).length →
       sanitize md5hexDemo dirtyDemo =
         md5hexDemo dirtyDemo ++ takeRightL 114 (reSubSanitize dirtyDemo) ∧
       (sanitize md5hexDemo dirtyDemo).length = 146)) :=
  ⟨⟨by decide, by decide⟩,
   sanitize_clean_and_bounded md5hexDemo dirtyDemo (by decide) (by decide)⟩

/-- A directory tree contains itself. -/
theorem pathUnder_refl (p : String) : pathUnder p p = true := by
  simp [pathUnder]

/-- `rmtree` succeeds exactly on an existing path, and then removes the tree
under it. -/
theorem rmtree_ok_iff (path : String) (fs gs : List String) :
    rmtree path fs = .ok gs ↔
      path ∈ fs ∧ gs = fs.filter (fun q => !(pathUnder path q)) := by
  unfold rmtree
  split
  · constructor
    · intro h
      injection h with h2
      exact ⟨by assumption, h2.symm⟩
    · intro ⟨_, h2⟩
      rw [h2]
  · constructor
    · intro h
      exact absurd h (by simp)
    · intro ⟨hmem, _⟩
      exact absurd hmem (by assumption)

/-- `rmtree` on a missing path raises. -/
theorem rmtree_missing (path : String) (fs : List String) (h : path ∉ fs) :
    rmtree path fs = .error PyErr.fileNotFoundError := by
  unfold rmtree
  rw [if_neg h]

/-- C1 (amended): `delete_all` performs the three deletes sequentially in
the order `delete_tmp`, `delete_raw`, `delete_toasted`, but it does
short-circuit: an exception raised by an earlier delete propagates and the
subsequent deletes in the sequence do not execute. -/
theorem delete_all_order_and_short_circuit (cfg : EggoConfig) (name : String) (st : DfsState) :
    (∀ e, delete_tmp cfg name st = .error e → delete_all cfg name st = .error e) ∧
    (∀ st1 e, delete_tmp cfg name st = .ok st1 → delete_raw cfg name st1 = .error e →
      delete_all cfg name st = .error e) ∧
    (∀ st1 st2, delete_tmp cfg name st = .ok st1 → delete_raw cfg name st1 = .ok st2 →
      delete_all cfg name st = delete_toasted cfg name st2) := by
  refine ⟨fun e h => ?_, fun st1 e h1 h2 => ?_, fun st1 st2 h1 h2 => ?_⟩
  · simp [delete_all, h, Bind.bind, Except.bind]
  · simp [delete_all, h1, h2, Bind.bind, Except.bind]
  · simp [delete_all, h1, h2, Bind.bind, Except.bind]

/-- C1 witness: with the tmp namespace missing but raw and toasted present,
`delete_all` raises the tmp delete's exception. -/
theorem delete_all_order_and_short_circuit_witness :
    delete_all demoConfig "x" ⟨["/data/raw/x", "/data/x"], []⟩ =
      .error PyErr.fileNotFoundError :=
  (delete_all_order_and_short_circuit demoConfig "x"
    ⟨["/data/raw/x", "/data/x"], []⟩).1 PyErr.fileNotFoundError (by decide)

/-- C1 counterexample: with the tmp namespace missing, `delete_all` raises
and the raw and toasted deletes — each of which would succeed on this state —
never execute, whereas the claimed best-effort behaviour (`delete_all_spec`)
would delete both. -/
theorem delete_all_no_short_circuit_cex :
    delete_all demoConfig "x" ⟨["/data/raw/x", "/data/x"], []⟩ =
      .error PyErr.fileNotFoundError ∧
    delete_raw demoConfig "x" ⟨["/data/raw/x", "/data/x"], []⟩ = .ok ⟨["/data/x"], []⟩ ∧
    delete_toasted demoConfig "x" ⟨["/data/raw/x", "/data/x"], []⟩ = .ok ⟨["/data/raw/x"], []⟩ ∧
    delete_all_spec demoConfig "x" ⟨["/data/raw/x", "/data/x"], []⟩ =
      (⟨[], []⟩, [PyErr.fileNotFoundError]) :=
  ⟨by decide, by decide, by decide, by decide⟩

/-- C2 (amended): the `file`-scheme namespace delete is not idempotent:
after a first successful delete the namespace path no longer exists, and for
that very reason a second call on the same URL raises `rmtree`'s
missing-path error. -/
theorem delete_url_file_second_call_errors (url : StorageURL) (st st1 : DfsState)
    (hscheme : url.scheme = "file") (h1 : delete_url url st = .ok st1) :
    url.path ∉ st1.files ∧ delete_url url st1 = .error PyErr.fileNotFoundError := by
  unfold delete_url at h1 ⊢
  rw [hscheme] at h1 ⊢
  rw [if_neg (by decide : ¬("file" : String) = "s3n")] at h1 ⊢
  rw [if_pos rfl] at h1 ⊢
  cases hr : rmtree url.path st.files with
  | error e => rw [hr] at h1; exact absurd h1 (by simp)
  | ok fs =>
    rw [hr] at h1
    injection h1 with hst1
    obtain ⟨hmem, hfs⟩ := (rmtree_ok_iff url.path st.files fs).mp hr
    have hnot : url.path ∉ fs := by
      intro hin
      rw [hfs] at hin
      have hband := (List.mem_filter.mp hin).2
      rw [pathUnder_refl] at hband
      exact absurd hband (by decide)
    have hfiles : st1.files = fs := by rw [← hst1]
    constructor
    · rw [hfiles]; exact hnot
    · rw [hfiles, rmtree_missing url.path fs hnot]

/-- C2 witness: deleting the existing namespace `/ns` once succeeds and
empties it; the theorem then gives that `/ns` is gone and that the second
call raises. -/
theorem delete_url_file_second_call_errors_witness :
    (StorageURL.mk "file" "" "/ns").scheme = "file" ∧
    delete_url ⟨"file", "", "/ns"⟩ ⟨["/ns"], []⟩ = .ok ⟨[], []⟩ ∧
    ("/ns" ∉ (DfsState.mk [] []).files ∧
     delete_url ⟨"file", "", "/ns"⟩ ⟨[], []⟩ = .error PyErr.fileNotFoundError) :=
  ⟨rfl, by decide,
   delete_url_file_second_call_errors ⟨"file", "", "/ns"⟩ ⟨["/ns"], []⟩ ⟨[], []⟩ rfl (by decide)⟩

/-- C2 counterexample: on the `file` scheme the first `delete_raw` succeeds
but the second call on the same URL raises — deleting a nonexistent path is
an error, so namespace deletion is not idempotent. -/
theorem delete_namespace_idempotent_cex :
    delete_raw demoConfig "x" ⟨["/data/raw/x"], []⟩ = .ok ⟨[], []⟩ ∧
    delete_raw demoConfig "x" ⟨[], []⟩ = .error PyErr.fileNotFoundError :=
  ⟨by decide, by decide⟩

/-- A `mkdir -p` command is not a clone. -/
theorem isCloneCmd_mkdir (x : String) :
    isCloneCmd (RemoteEffect.runCmd ("mkdir -p " ++ x)) = false := by
  simp only [isCloneCmd, String.toList, String.data_append]
  rfl

/-- A `mkdir -p` command is not a checkout. -/
theorem isCheckoutCmd_mkdir (x : String) :
    isCheckoutCmd (RemoteEffect.runCmd ("mkdir -p " ++ x)) = false := by
  simp only [isCheckoutCmd, String.toList, String.data_append]
  rfl

/-- The maven download command is not a clone. -/
theorem isCloneCmd_wget (mv : String) :
    isCloneCmd (RemoteEffect.runCmd ("wget http://apache.mesi.com.ar/maven/maven-3/" ++
      mv ++ "/binaries/apache-maven-" ++ mv ++ "-bin.tar.gz")) = false := by
  simp only [isCloneCmd, String.toList, String.data_append]
  rfl

/-- The maven download command is not a checkout. -/
theorem isCheckoutCmd_wget (mv : String) :
    isCheckoutCmd (RemoteEffect.runCmd ("wget http://apache.mesi.com.ar/maven/maven-3/" ++
      mv ++ "/binaries/apache-maven-" ++ mv ++ "-bin.tar.gz")) = false := by
  simp only [isCheckoutCmd, String.toList, String.data_append]
  rfl

/-- The maven unpack command is not a clone. -/
theorem isCloneCmd_tar (mv : String) :
    isCloneCmd (RemoteEffect.runCmd ("tar -xzf apache-maven-" ++ mv ++ "-bin.tar.gz")) = false := by
  simp only [isCloneCmd, String.toList, String.data_append]
  rfl

/-- The maven unpack command is not a checkout. -/
theorem isCheckoutCmd_tar (mv : String) :
    isCheckoutCmd (RemoteEffect.runCmd ("tar -xzf apache-maven-" ++ mv ++ "-bin.tar.gz")) = false := by
  simp only [isCheckoutCmd, String.toList, String.data_append]
  rfl

/-- C3 (amended): the install steps are clone-only-if-absent.  A first run
from a missing directory leaves the requested branch's ref checked out, and
a re-run — the directory now existing — performs no clone and no checkout
and leaves the checked-out ref unchanged; in particular, when the existing
working copy is at some other ref, the step does not check out the requested
branch. -/
theorem install_steps_clone_only_if_absent
    (eggo_home work_path adam_home maven_version fork branch r : String) :
    (install_eggo eggo_home fork branch none).1 = some (checkedOutRef branch) ∧
    install_eggo eggo_home fork branch (some (checkedOutRef branch)) =
      (some (checkedOutRef branch), [RemoteEffect.sudoCmd "python setup.py install"]) ∧
    install_eggo eggo_home fork branch (some r) =
      (some r, [RemoteEffect.sudoCmd "python setup.py install"]) ∧
    (install_adam work_path adam_home maven_version fork branch none).1 =
      some (checkedOutRef branch) ∧
    (install_adam work_path adam_home maven_version fork branch (some r)).1 = some r ∧
    (install_adam work_path adam_home maven_version fork branch (some r)).2.countP
      isCloneCmd = 0 ∧
    (install_adam work_path adam_home maven_version fork branch (some r)).2.countP
      isCheckoutCmd = 0 := by
  by_cases hb : branch = "master" <;>
    simp [install_eggo, install_adam, checkedOutRef, hb, List.countP_append,
      List.countP_cons, List.countP_nil, isCloneCmd_mkdir, isCheckoutCmd_mkdir,
      isCloneCmd_wget, isCheckoutCmd_wget, isCloneCmd_tar, isCheckoutCmd_tar,
      isCloneCmd, isCheckoutCmd]

/-- C3 counterexample: with the target directory already existing at
`master` and branch `dev` requested, the step performs neither a clone nor a
checkout — the only effect is the build/install command — and the working
copy stays at `master` rather than at the requested branch's ref
`origin/dev`. -/
theorem install_eggo_existing_no_checkout_cex :
    install_eggo "/work/eggo" "bigdatagenomics" "dev" (some "master") =
      (some "master", [RemoteEffect.sudoCmd "python setup.py install"]) ∧
    checkedOutRef "dev" ≠ "master" :=
  ⟨by decide, by decide⟩

/-- C4: for every supported execution context, whenever `get_worker_hosts`
returns, it returns exactly the master consed onto the slave list, and the
returned list is nonempty — the master is always included. -/
theorem get_worker_hosts_master_cons_slaves (ctx : String) (e : ExtEnv) (ws : List String)
    (_hctx : ctx = "local" ∨ ctx = "spark_ec2" ∨ ctx = "director")
    (h : get_worker_hosts ctx e = .ok ws) :
    (∃ m s, get_master_host ctx e = .ok m ∧ get_slave_hosts ctx e = .ok s ∧
      ws = m :: s) ∧ 1 ≤ ws.length := by
  cases hm : get_master_host ctx e with
  | error e2 => simp [get_worker_hosts, hm, Bind.bind, Except.bind] at h
  | ok m =>
    cases hs : get_slave_hosts ctx e with
    | error e2 => simp [get_worker_hosts, hm, hs, Bind.bind, Except.bind] at h
    | ok s =>
      have hws : ws = m :: s := by
        simp [get_worker_hosts, hm, hs, Bind.bind, Except.bind, pure, Except.pure] at h
        first
        | exact h
        | exact h.symm
      refine ⟨⟨m, s, rfl, rfl, hws⟩, ?_⟩
      rw [hws]
      simp

/-- C4 witness: under the local context the worker list is exactly
`[localhost]`, i.e. the master consed onto the empty slave list. -/
theorem get_worker_hosts_master_cons_slaves_witness :
    ("local" = "local" ∨ "local" = "spark_ec2" ∨ "local" = "director") ∧
    get_worker_hosts "local" demoEnv = .ok ["localhost"] ∧
    ((∃ m s, get_master_host "local" demoEnv = .ok m ∧
       get_slave_hosts "local" demoEnv = .ok s ∧ ["localhost"] = m :: s) ∧
     1 ≤ (["localhost"] : List String).length) :=
  ⟨Or.inl rfl, by decide,
   get_worker_hosts_master_cons_slaves "local" demoEnv ["localhost"] (Or.inl rfl) (by decide)⟩

/-- C5 counterexample: under `spark_ec2` a keyword argument (here
`user='hdfs'`, exactly what `create_hdfs_users` passes) routes the call to
fabric's privilege-elevating sudo instead of the direct `run`, so the
strategy is not determined by the execution context alone. -/
theorem sudo_ctx_alone_cex :
    sudo_dispatch "spark_ec2" "hadoop fs -mkdir /user/ec2-user" [("user", "hdfs")] =
      .ok (.fabricSudo "hadoop fs -mkdir /user/ec2-user" [("user", "hdfs")]) ∧
    sudo_dispatch "spark_ec2" "hadoop fs -mkdir /user/ec2-user" [("user", "hdfs")] ≠
      .ok (.runCmd "hadoop fs -mkdir /user/ec2-user") :=
  ⟨by decide, by decide⟩

/-- C5 (amended): the strategy is determined by the execution context
together with the presence of keyword arguments: `director` always
escalates via fabric sudo, any context with keyword arguments escalates via
fabric sudo (carrying the impersonated user), and with no keyword arguments
`spark_ec2` runs the command directly while `local` executes it on the
calling host. -/
theorem sudo_dispatch_strategy (cmd : String) (kw : List (String × String)) (hkw : kw ≠ []) :
    (∀ kw2 : List (String × String),
      sudo_dispatch "director" cmd kw2 = .ok (.fabricSudo cmd kw2)) ∧
    sudo_dispatch "spark_ec2" cmd [] = .ok (.runCmd cmd) ∧
    sudo_dispatch "local" cmd [] = .ok (.localCmd cmd) ∧
    sudo_dispatch "spark_ec2" cmd kw = .ok (.fabricSudo cmd kw) ∧
    sudo_dispatch "local" cmd kw = .ok (.fabricSudo cmd kw) := by
  refine ⟨fun kw2 => ?_, ?_, ?_, ?_, ?_⟩ <;> simp [sudo_dispatch, hkw]

/-- C5 witness: the amended dispatch at a concrete command and keyword
list. -/
theorem sudo_dispatch_strategy_witness :
    ([("user", "hdfs")] ≠ ([] : List (String × String))) ∧
    sudo_dispatch "spark_ec2" "ls" [("user", "hdfs")] =
      .ok (.fabricSudo "ls" [("user", "hdfs")]) :=
  ⟨by decide, (sudo_dispatch_strategy "ls" [("user", "hdfs")] (by decide)).2.2.2.1⟩

/-- C6 counterexample: calling `list` under the local context raises
`NotImplementedError` whose message contains the context name `local` but
not the operation name `list` — the message says "this method". -/
theorem list_local_missing_op_cex :
    list "local" =
      .error (.notImplementedError "local exec ctx is not supported for this method") ∧
    "local".toList <:+: ("local exec ctx is not supported for this method").toList ∧
    ¬ ("list".toList <:+: ("local exec ctx is not supported for this method").toList) :=
  ⟨by decide, by decide, by decide⟩

/-- C6 (amended): under every non-director context `list` raises
`NotImplementedError` (never a silent empty result) and the message names
the context — but it does not name the operation. -/
theorem list_unsupported_raises (ctx : String) (h : ctx ≠ "director") :
    list ctx = .error (.notImplementedError
      (ctx ++ " exec ctx is not supported for this method")) ∧
    ctx.toList <:+: (ctx ++ " exec ctx is not supported for this method").toList := by
  constructor
  · simp [list, h]
  · rw [show (ctx ++ " exec ctx is not supported for this method").toList =
        ctx.toList ++ (" exec ctx is not supported for this method").toList from
      String.data_append ctx (" exec ctx is not supported for this method")]
    exact (List.prefix_append _ _).isInfix

/-- C6 witness: the amended statement at the local context. -/
theorem list_unsupported_raises_witness :
    ("local" ≠ "director") ∧
    (list "local" = .error (.notImplementedError
      ("local" ++ " exec ctx is not supported for this method")) ∧
     "local".toList <:+:
       ("local" ++ " exec ctx is not supported for this method").toList) :=
  ⟨by decide, list_unsupported_raises "local" (by decide)⟩

/-- C7: under `spark_ec2`, whenever the captured `get-master` output has at
least three lines, `get_master_host` returns the line at index 2 of the
newline-split output, stripped of surrounding whitespace. -/
theorem get_master_host_spark_third_line (e : ExtEnv)
    (h : 2 < (splitLines e.spark_getmaster_output.toList).length) :
    get_master_host "spark_ec2" e =
      .ok (String.mk (pyStripWs
        ((splitLines e.spark_getmaster_output.toList).getD 2 []))) := by
  unfold get_master_host
  rw [if_pos rfl, dif_pos h]
  rw [List.get_eq_getElem, List.getD_eq_getElem]

/-- C7 witness: a concrete four-line CLI transcript whose third line is the
master address surrounded by whitespace. -/
theorem get_master_host_spark_third_line_witness :
    (2 < (splitLines demoEnv.spark_getmaster_output.toList).length) ∧
    get_master_host "spark_ec2" demoEnv = .ok "ec2-54-10-0-1.example" :=
  ⟨by decide,
   (get_master_host_spark_third_line demoEnv (by decide)).trans (by decide)⟩

/-- C8: under the local context with a file-scheme DFS root, `provision`'s
side effects are exactly the three local directory creations — no
provisioning command, no EC2 connection and no instance tagging. -/
theorem provision_local_file_effects (cfg : EggoConfig) (user : String)
    (h : cfg.dfs_root_url.scheme = "file") :
    provision "local" cfg user =
      [.localCmd ("mkdir -p " ++ cfg.dfs_root_url.path),
       .localCmd ("mkdir -p " ++ cfg.dfs_raw_data_url.path),
       .localCmd ("mkdir -p " ++ cfg.dfs_tmp_data_url.path)] := by
  simp [provision, h]

/-- C8 witness: the three concrete mkdir effects for `demoConfig`. -/
theorem provision_local_file_effects_witness :
    demoConfig.dfs_root_url.scheme = "file" ∧
    provision "local" demoConfig "alice" =
      [.localCmd "mkdir -p /data", .localCmd "mkdir -p /data/raw",
       .localCmd "mkdir -p /data/tmp"] :=
  ⟨rfl, (provision_local_file_effects demoConfig "alice" rfl).trans (by decide)⟩
